import Mathlib

set_option autoImplicit false

/-
  Shallow embedding of the connection-room subsystem of the WorldMorse API
  server (files src/index.js, src/server.js and the unnamed earlier server
  variant, called Part000 below).  Pure data is embedded directly; the
  imperative handlers are embedded as functions from their inputs and the
  current room registry to an explicit record of the state change and the
  I/O effects (station upserts, direct websocket sends, broadcasts) they
  perform.
-/

namespace WorldMorse

/-- A live websocket connection endpoint, identified by `id`, carrying the
transport `readyState` (the `ws` library constant: 1 = OPEN). -/
structure Conn where
  id : Nat
  readyState : Nat
deriving DecidableEq, Repr

/-- The `WebSocket.OPEN` ready-state constant: `index.js` compares
`ws.readyState === ws.OPEN` and `server.js` compares `ws.readyState === 1`;
both denote the numeric value 1. -/
def OPEN : Nat := 1

/-- A wire event envelope `{ kind, ...fields }`: a `kind` discriminator plus
the remaining key/value fields. -/
structure Event where
  kind : String
  fields : List (String × String)
deriving DecidableEq, Repr

/-- Serialization of the non-kind fields, part of the model of
`JSON.stringify`. -/
def serializeFields : List (String × String) → String
  | [] => ""
  | (k, v) :: rest => k ++ "=" ++ v ++ ";" ++ serializeFields rest

/-- Model of `JSON.stringify` on a wire envelope: a deterministic printer,
so one call produces one concrete string. -/
def serialize (e : Event) : String :=
  "kind=" ++ e.kind ++ ";" ++ serializeFields e.fields

/-- The `hello` acknowledgement event
`{ kind: "hello", ok: true, callsign, channel }` sent by `server.js` line
242 (and by the Part000 variant). -/
def helloEvent (callsign channel : String) : Event :=
  ⟨"hello", [("ok", "true"), ("callsign", callsign), ("channel", channel)]⟩

/-- The `presence` event `{ kind: "presence", data: { callsign, channel } }`
broadcast by `index.js` line 211. -/
def presenceEvent (callsign channel : String) : Event :=
  ⟨"presence", [("callsign", callsign), ("channel", channel)]⟩

/-- The `{ kind: "pong" }` reply sent by the `index.js` message handler. -/
def pongEvent : Event := ⟨"pong", []⟩

/-- Model of `const norm = (s) => String(s || "").trim().toUpperCase()`
(`server.js` line 24), also of the inline
`String(url.searchParams.get("callsign") || "").trim().toUpperCase()` in
`index.js` line 195.  A `null`/absent query parameter is `none` and maps to
the empty string; `.trim()` strips leading and trailing whitespace;
`.toUpperCase()` upcases every character. -/
def norm (s? : Option String) : String :=
  ⟨((((s?.getD "").data.dropWhile Char.isWhitespace).reverse.dropWhile
      Char.isWhitespace).reverse).map Char.toUpper⟩

/-- Model of `String(x || dflt)` applied to a nullable query parameter:
both `null` (absent) and the empty string are falsy in JavaScript, so both
are replaced by the default. -/
def jsDefault (s? : Option String) (dflt : String) : String :=
  match s? with
  | none => dflt
  | some s => if s = "" then dflt else s

/-- The room registry: `channel => Set(ws)` (`channelRooms` in `index.js`,
`channelClients` in `server.js`/Part000), embedded as an association list
whose per-channel member list keeps the `Set` insertion order. -/
abbrev Rooms := List (String × List Conn)

/-- Model of `Map.prototype.get` on the room registry. -/
def lookupRoom : Rooms → String → Option (List Conn)
  | [], _ => none
  | (c, ms) :: rest, ch => if c = ch then some ms else lookupRoom rest ch

/-- Model of `Set.prototype.add`: appends the element unless already
present (a member may only occur once). -/
def addToSet (ws : Conn) (ms : List Conn) : List Conn :=
  if ws ∈ ms then ms else ms ++ [ws]

/-- Model of `Set.prototype.delete`: removes the element. -/
def removeFromSet (ws : Conn) (ms : List Conn) : List Conn :=
  ms.filter (fun c => c ≠ ws)

/-- `index.js` lines 172-175 `joinRoom(channel, ws)` (and the inline join in
`server.js` lines 227-228): create the room's set on first join, then add
the connection to it. -/
def joinRoom (ch : String) (ws : Conn) : Rooms → Rooms
  | [] => [(ch, [ws])]
  | (c, ms) :: rest =>
      if c = ch then (c, addToSet ws ms) :: rest
      else (c, ms) :: joinRoom ch ws rest

/-- `index.js` lines 177-182 `leaveRoom(channel, ws)`: look the room up
(return unchanged when absent), delete the connection from its set, and
delete the room entry entirely when the set became empty. -/
def leaveRoom (ch : String) (ws : Conn) : Rooms → Rooms
  | [] => []
  | (c, ms) :: rest =>
      if c = ch then
        (if removeFromSet ws ms = [] then rest else (c, removeFromSet ws ms) :: rest)
      else (c, ms) :: leaveRoom ch ws rest

/-- The statement `channelClients.get(channel)?.delete(ws)` shared by the
`server.js` and Part000 close handlers: removes the connection from the
channel's set when the entry exists but never deletes the entry itself. -/
def deleteFromRoomKeep (ch : String) (ws : Conn) : Rooms → Rooms
  | [] => []
  | (c, ms) :: rest =>
      if c = ch then (c, removeFromSet ws ms) :: rest
      else (c, ms) :: deleteFromRoomKeep ch ws rest

/-- `server.js` lines 203-206 `cleanupChannelIfEmpty(channel)`: deletes the
channel's entry when its set exists and is empty. -/
def cleanupChannelIfEmpty (ch : String) : Rooms → Rooms
  | [] => []
  | (c, ms) :: rest =>
      if c = ch then (if ms = [] then rest else (c, ms) :: rest)
      else (c, ms) :: cleanupChannelIfEmpty ch rest

/-- The fan-out loop of `broadcastToChannel` (`index.js` lines 188-190,
`server.js` lines 198-200): iterate the member set in order and send the
already-serialized `data` to each member whose `readyState` is OPEN; a
member that is not open is passed over and the loop continues.  Returns
the list of performed sends as (connection id, data) pairs.  Inside the
loop `ws.send` is the `ws` library call, which on an OPEN socket reports
write failures asynchronously rather than by throwing. -/
def fanOut : List Conn → String → List (Nat × String)
  | [], _ => []
  | ws :: rest, data =>
      if ws.readyState = OPEN then (ws.id, data) :: fanOut rest data
      else fanOut rest data

/-- The result of one `broadcastToChannel` call: the sends it performed,
how many times it serialized the event, and the room registry as the call
leaves it. -/
structure BroadcastOut where
  deliveries : List (Nat × String)
  serializations : Nat
  rooms : Rooms
deriving DecidableEq, Repr

/-- `broadcastToChannel(channel, obj)` (`index.js` lines 184-191,
`server.js` lines 194-201): look up the channel's set; when absent, return
at once (nothing serialized, nothing sent); otherwise serialize the event
once (`const data = JSON.stringify(obj)`) and run the fan-out loop over the
set.  The loop never mutates the registry, so the registry is returned
unchanged. -/
def broadcastToChannel (ch : String) (ev : Event) (rooms : Rooms) : BroadcastOut :=
  match lookupRoom rooms ch with
  | none => ⟨[], 0, rooms⟩
  | some members => ⟨fanOut members (serialize ev), 1, rooms⟩

/-- The incoming connection request, i.e. the `callsign` and `channel` URL
query parameters, each `none` when absent. -/
structure ConnReq where
  callsign? : Option String
  channel? : Option String
deriving DecidableEq, Repr

/-- What one run of a `wss.on("connection")` handler does: whether it
closed the socket, the registry it leaves behind, the `stations` upserts
(callsign, channel) it issues, its direct sends to single sockets, and the
sends performed by the broadcasts it triggers. -/
structure ConnOutcome where
  closed : Bool
  rooms : Rooms
  stationWrites : List (String × String)
  directSends : List (Nat × String)
  broadcasts : List (Nat × String)
deriving DecidableEq, Repr

/-- What one run of a `ws.on("message")` handler does: the `stations`
last-seen refreshes it issues (callsign list), its direct sends, and the
sends performed by the broadcast it triggers. -/
structure MsgOutcome where
  stationRefreshes : List String
  directSends : List (Nat × String)
  broadcasts : List (Nat × String)
deriving DecidableEq, Repr

namespace IndexJs

/-- `index.js` lines 193-212, the body of `wss.on("connection")` up to the
handler installations: normalize the callsign, default the channel to
"7.050", join the room unconditionally, and only when the callsign is
non-empty upsert the station row and broadcast a `presence` event to the
(already joined) room.  No branch closes the socket. -/
def onConnection (req : ConnReq) (ws : Conn) (rooms : Rooms) : ConnOutcome :=
  let callsign := norm req.callsign?
  let channel := jsDefault req.channel? "7.050"
  let rooms' := joinRoom channel ws rooms
  if callsign = "" then
    ⟨false, rooms', [], [], []⟩
  else
    ⟨false, rooms', [(callsign, channel)], [],
      (broadcastToChannel channel (presenceEvent callsign channel) rooms').deliveries⟩

/-- `index.js` lines 214-229, the body of `ws.on("message")` applied to the
result of `JSON.parse` (`none` models a parse failure, dropped by the
`catch { return }`): a `ping` kind refreshes the station's last-seen (only
when a callsign was captured at connect) and sends one `pong` directly to
the sender, then returns; any other parsed frame is relayed unchanged via
`broadcastToChannel` to the channel captured at connect. -/
def handleMessage (callsign channel : String) (ws : Conn) (rooms : Rooms)
    (parsed : Option Event) : MsgOutcome :=
  match parsed with
  | none => ⟨[], [], []⟩
  | some msg =>
      if msg.kind = "ping" then
        ⟨if callsign = "" then [] else [callsign],
          [(ws.id, serialize pongEvent)], []⟩
      else
        ⟨[], [], (broadcastToChannel channel msg rooms).deliveries⟩

/-- `index.js` lines 231-233, the body of `ws.on("close")`: calls
`leaveRoom(channel, ws)`. -/
def onClose (channel : String) (ws : Conn) (rooms : Rooms) : Rooms :=
  leaveRoom channel ws rooms

end IndexJs

namespace ServerJs

/-- `server.js` lines 215-243, the body of `wss.on("connection")` up to the
handler installations: normalize the callsign, default the channel to
`DEFAULT_CHANNEL` ("7.050" under the default environment); when the
callsign or the channel is empty, `ws.close()` and return before any
registry or store mutation; otherwise join the room, upsert the station
row, and send the `hello` acknowledgement directly to this socket only. -/
def onConnection (req : ConnReq) (ws : Conn) (rooms : Rooms) : ConnOutcome :=
  let callsign := norm req.callsign?
  let channel := jsDefault req.channel? "7.050"
  if callsign = "" ∨ channel = "" then
    ⟨true, rooms, [], [], []⟩
  else
    ⟨false, joinRoom channel ws rooms, [(callsign, channel)],
      [(ws.id, serialize (helloEvent callsign channel))], []⟩

/-- `server.js` lines 265-269, the body of `ws.on("close")`: clear the
heartbeat interval, `channelClients.get(channel)?.delete(ws)`, then
`cleanupChannelIfEmpty(channel)`. -/
def onClose (channel : String) (ws : Conn) (rooms : Rooms) : Rooms :=
  cleanupChannelIfEmpty channel (deleteFromRoomKeep channel ws rooms)

/-- The per-connection liveness bookkeeping of `server.js`: the `isAlive`
flag, whether the socket is still open, and whether the heartbeat interval
timer is still scheduled. -/
structure HbConn where
  isAlive : Bool
  connOpen : Bool
  timerActive : Bool
deriving DecidableEq, Repr

/-- The side effects a heartbeat tick may perform. -/
inductive HbEffect where
  | pingFrame
  | refreshLastSeen
  | closeConn
  | stopTimer
deriving DecidableEq, Repr

/-- `server.js` lines 245-247, the body of `ws.on("pong")`: sets
`ws.isAlive = true`. -/
def onPongFrame (s : HbConn) : HbConn := { s with isAlive := true }

/-- `server.js` lines 249-263, the body of the 30-second `setInterval`
heartbeat callback: set `ws.isAlive = false`, send a protocol ping frame,
and refresh the station's last_seen row.  The callback reads nothing else
and performs nothing else: it never inspects `isAlive`, never closes the
socket, never clears the timer, and never touches the room registry. -/
def heartbeatTick (s : HbConn) (rooms : Rooms) : HbConn × Rooms × List HbEffect :=
  ({ s with isAlive := false }, rooms, [.pingFrame, .refreshLastSeen])

end ServerJs

namespace Part000

/-- The unnamed earlier server variant (src/unnamed/part_000) lines
218-221, the body of `ws.on("close")`: clear the interval and
`channelClients.get(channel)?.delete(ws)` — with no
`cleanupChannelIfEmpty` step. -/
def onClose (channel : String) (ws : Conn) (rooms : Rooms) : Rooms :=
  deleteFromRoomKeep channel ws rooms

end Part000

/-- A persisted row of the `messages` table, as selected by the
recent-messages query (`id, channel, from_callsign as callsign,
to_callsign, type, payload, created_at`).  `id` is the auto-assigned
strictly increasing bigserial key. -/
structure MsgRow where
  id : Nat
  channel : String
  callsign : String
  toCallsign : Option String
  type : String
  payload : String
  created_at : Nat
deriving DecidableEq, Repr

/-- Insert a row into a list kept in descending-id order. -/
def insertDesc (r : MsgRow) : List MsgRow → List MsgRow
  | [] => [r]
  | x :: xs => if x.id ≤ r.id then r :: x :: xs else x :: insertDesc r xs

/-- Model of the SQL `order by id desc`: sort the selected rows into
descending-id order. -/
def sortByIdDesc : List MsgRow → List MsgRow
  | [] => []
  | x :: xs => insertDesc x (sortByIdDesc xs)

/-- The query of GET /v1/messages/recent (`index.js` lines 109-116,
`server.js` lines 126-133): `where channel=$1 order by id desc limit $2`
over the stored rows. -/
def selectRecentDesc (db : List MsgRow) (ch : String) (lim : Nat) : List MsgRow :=
  (sortByIdDesc (db.filter (fun r => r.channel = ch))).take lim

/-- What GET /v1/messages/recent hands to the caller: `index.js` line 118
computes `r.rows.reverse()` followed by a map that spread-copies each row
and rewrites `payload` with its own value — a field-for-field copy
(`server.js` line 135 is the same `rows.reverse()` without the copying
map). -/
def recentMessages (db : List MsgRow) (ch : String) (lim : Nat) : List MsgRow :=
  ((selectRecentDesc db ch lim).reverse).map
    (fun x => { x with payload := x.payload })

/-! Helper lemmas about the embedded operations. -/

theorem fanOut_eq_filter_map (ms : List Conn) (data : String) :
    fanOut ms data
      = (ms.filter (fun c => c.readyState = OPEN)).map (fun c => (c.id, data)) := by
  induction ms with
  | nil => rfl
  | cons w rest ih =>
      by_cases h : w.readyState = OPEN
      · simp [fanOut, h, ih]
      · simp [fanOut, h, ih]

theorem fanOut_append (l₁ l₂ : List Conn) (data : String) :
    fanOut (l₁ ++ l₂) data = fanOut l₁ data ++ fanOut l₂ data := by
  simp [fanOut_eq_filter_map]

theorem mem_fanOut_of_open {c : Conn} {ms : List Conn} (data : String)
    (hm : c ∈ ms) (ho : c.readyState = OPEN) :
    (c.id, data) ∈ fanOut ms data := by
  rw [fanOut_eq_filter_map]
  exact List.mem_map_of_mem _ (List.mem_filter.2 ⟨hm, by simp [ho]⟩)

theorem mem_addToSet_self (ws : Conn) (ms : List Conn) : ws ∈ addToSet ws ms := by
  by_cases h : ws ∈ ms
  · simp [addToSet, h]
  · simp [addToSet, h]

theorem mem_lookupRoom_joinRoom_self (ch : String) (ws : Conn) (rooms : Rooms) :
    ws ∈ (lookupRoom (joinRoom ch ws rooms) ch).getD [] := by
  induction rooms with
  | nil => simp [joinRoom, lookupRoom]
  | cons e rest ih =>
      obtain ⟨c, ms⟩ := e
      by_cases h : c = ch
      · simp [joinRoom, lookupRoom, h, mem_addToSet_self]
      · simp [joinRoom, lookupRoom, h, ih]

theorem jsDefault_ne_empty (s? : Option String) {dflt : String} (h : dflt ≠ "") :
    jsDefault s? dflt ≠ "" := by
  match s? with
  | none => simpa [jsDefault] using h
  | some s =>
      by_cases hs : s = ""
      · simpa [jsDefault, hs] using h
      · simp [jsDefault, hs]

theorem leaveRoom_no_empty {rooms : Rooms} (ch : String) (ws : Conn)
    (h : ∀ e ∈ rooms, e.2 ≠ []) :
    ∀ e ∈ leaveRoom ch ws rooms, e.2 ≠ [] := by
  induction rooms with
  | nil => simp [leaveRoom]
  | cons p rest ih =>
      obtain ⟨c, ms⟩ := p
      have hrest : ∀ e ∈ rest, e.2 ≠ [] := fun e he => h e (List.mem_cons_of_mem _ he)
      by_cases hc : c = ch
      · by_cases hrm : removeFromSet ws ms = []
        · simpa [leaveRoom, hc, hrm] using hrest
        · intro e he
          rw [leaveRoom, if_pos hc, if_neg hrm] at he
          rcases List.mem_cons.1 he with rfl | he
          · exact hrm
          · exact hrest e he
      · intro e he
        rw [leaveRoom, if_neg hc] at he
        rcases List.mem_cons.1 he with rfl | he
        · exact h _ (List.mem_cons_self _ _)
        · exact ih hrest e he

theorem serverJsOnClose_no_empty {rooms : Rooms} (ch : String) (ws : Conn)
    (h : ∀ e ∈ rooms, e.2 ≠ []) :
    ∀ e ∈ ServerJs.onClose ch ws rooms, e.2 ≠ [] := by
  induction rooms with
  | nil => simp [ServerJs.onClose, deleteFromRoomKeep, cleanupChannelIfEmpty]
  | cons p rest ih =>
      obtain ⟨c, ms⟩ := p
      have hrest : ∀ e ∈ rest, e.2 ≠ [] := fun e he => h e (List.mem_cons_of_mem _ he)
      by_cases hc : c = ch
      · by_cases hrm : removeFromSet ws ms = []
        · intro e he
          rw [ServerJs.onClose, deleteFromRoomKeep, if_pos hc,
            cleanupChannelIfEmpty, if_pos hc, if_pos hrm] at he
          exact hrest e he
        · intro e he
          rw [ServerJs.onClose, deleteFromRoomKeep, if_pos hc,
            cleanupChannelIfEmpty, if_pos hc, if_neg hrm] at he
          rcases List.mem_cons.1 he with rfl | he
          · exact hrm
          · exact hrest e he
      · intro e he
        rw [ServerJs.onClose, deleteFromRoomKeep, if_neg hc,
          cleanupChannelIfEmpty, if_neg hc] at he
        rcases List.mem_cons.1 he with rfl | he
        · exact h _ (List.mem_cons_self _ _)
        · exact ih hrest e he

theorem mem_insertDesc {a r : MsgRow} {l : List MsgRow} :
    a ∈ insertDesc r l ↔ a = r ∨ a ∈ l := by
  induction l with
  | nil => simp [insertDesc]
  | cons x xs ih =>
      by_cases h : x.id ≤ r.id
      · simp [insertDesc, h]
      · simp only [insertDesc, if_neg h, List.mem_cons, ih]
        tauto

theorem pairwise_insertDesc {r : MsgRow} {l : List MsgRow}
    (hl : l.Pairwise (fun a b => b.id ≤ a.id)) :
    (insertDesc r l).Pairwise (fun a b => b.id ≤ a.id) := by
  induction l with
  | nil => simp [insertDesc]
  | cons x xs ih =>
      rcases List.pairwise_cons.1 hl with ⟨hx, hxs⟩
      by_cases h : x.id ≤ r.id
      · rw [insertDesc, if_pos h]
        refine List.pairwise_cons.2 ⟨?_, hl⟩
        intro b hb
        rcases List.mem_cons.1 hb with rfl | hb
        · exact h
        · exact Nat.le_trans (hx b hb) h
      · rw [insertDesc, if_neg h]
        refine List.pairwise_cons.2 ⟨?_, ih hxs⟩
        intro b hb
        rcases mem_insertDesc.1 hb with rfl | hb
        · exact Nat.le_of_lt (Nat.lt_of_not_le h)
        · exact hx b hb

theorem sorted_sortByIdDesc (l : List MsgRow) :
    (sortByIdDesc l).Pairwise (fun a b => b.id ≤ a.id) := by
  induction l with
  | nil => simp [sortByIdDesc]
  | cons x xs ih => exact pairwise_insertDesc ih

theorem mem_sortByIdDesc {a : MsgRow} {l : List MsgRow} :
    a ∈ sortByIdDesc l ↔ a ∈ l := by
  induction l with
  | nil => simp [sortByIdDesc]
  | cons x xs ih => simp [sortByIdDesc, mem_insertDesc, ih]

theorem map_copy_payload (l : List MsgRow) :
    l.map (fun x => { x with payload := x.payload }) = l := by
  induction l with
  | nil => rfl
  | cons x xs ih => simp [ih]

/-! The claim theorems. -/

/-- Claim C1, counterexample: the claim fails on the cited code.  In the
`index.js` handler a request with no callsign at all is not closed and the
connection is still added to the room's membership (state mutation); in
the `server.js` handler a request with a missing channel (and a valid
callsign) is not closed either — the default channel is substituted and
the join proceeds. -/
theorem c1_reject_counterexample :
    ((IndexJs.onConnection ⟨none, some "7.050"⟩ ⟨1, 1⟩ []).closed = false ∧
      (⟨1, 1⟩ : Conn) ∈
        (lookupRoom (IndexJs.onConnection ⟨none, some "7.050"⟩ ⟨1, 1⟩ []).rooms
          "7.050").getD []) ∧
    ((ServerJs.onConnection ⟨some "K1ABC", none⟩ ⟨2, 1⟩ []).closed = false ∧
      (⟨2, 1⟩ : Conn) ∈
        (lookupRoom (ServerJs.onConnection ⟨some "K1ABC", none⟩ ⟨2, 1⟩ []).rooms
          "7.050").getD []) := by
  decide

/-- Claim C1, amended: in the `server.js` connection handler, every
incoming request whose callsign normalizes to the empty string is closed
immediately with no state mutation — the registry is left unchanged, no
stations write is issued, and nothing is sent or broadcast.  (A missing
channel does not cause rejection: the default channel is substituted.  The
`index.js` handler performs no handshake rejection at all.) -/
theorem c1_reject_amended (req : ConnReq) (ws : Conn) (rooms : Rooms)
    (h : norm req.callsign? = "") :
    (ServerJs.onConnection req ws rooms).closed = true ∧
    (ServerJs.onConnection req ws rooms).rooms = rooms ∧
    (ServerJs.onConnection req ws rooms).stationWrites = [] ∧
    (ServerJs.onConnection req ws rooms).directSends = [] ∧
    (ServerJs.onConnection req ws rooms).broadcasts = [] := by
  simp [ServerJs.onConnection, h]

/-- Witness for the amended claim C1 at a whitespace-only callsign. -/
theorem c1_reject_amended_witness :
    norm (some "   ") = "" ∧
    ((ServerJs.onConnection ⟨some "   ", some "7.050"⟩ ⟨1, 1⟩
        [("7.050", [⟨2, 1⟩])]).closed = true ∧
      (ServerJs.onConnection ⟨some "   ", some "7.050"⟩ ⟨1, 1⟩
        [("7.050", [⟨2, 1⟩])]).rooms = [("7.050", [⟨2, 1⟩])] ∧
      (ServerJs.onConnection ⟨some "   ", some "7.050"⟩ ⟨1, 1⟩
        [("7.050", [⟨2, 1⟩])]).stationWrites = [] ∧
      (ServerJs.onConnection ⟨some "   ", some "7.050"⟩ ⟨1, 1⟩
        [("7.050", [⟨2, 1⟩])]).directSends = [] ∧
      (ServerJs.onConnection ⟨some "   ", some "7.050"⟩ ⟨1, 1⟩
        [("7.050", [⟨2, 1⟩])]).broadcasts = []) :=
  ⟨by decide,
    c1_reject_amended ⟨some "   ", some "7.050"⟩ ⟨1, 1⟩ [("7.050", [⟨2, 1⟩])] (by decide)⟩

/-- Claim C2: the `server.js` heartbeat never reaps a dead connection.
Starting from a joined connection (alive, open, timer running, a member of
"7.050"), a tick marks it unconfirmed (`isAlive = false`); with no pong
observed before the next tick, the next tick still leaves the connection
open, its timer running and its room membership intact, and neither tick
performs a close or a timer stop.  The code tracks `isAlive` (set false on
each tick, true on a pong frame) but never inspects it — the claimed and
specified close/stop/leave within one interval of the missed confirmation
never happens. -/
theorem c2_heartbeat_no_reap :
    (ServerJs.heartbeatTick ⟨true, true, true⟩ [("7.050", [⟨1, 1⟩])]).1.isAlive = false ∧
    (ServerJs.heartbeatTick
        (ServerJs.heartbeatTick ⟨true, true, true⟩ [("7.050", [⟨1, 1⟩])]).1
        (ServerJs.heartbeatTick ⟨true, true, true⟩
          [("7.050", [⟨1, 1⟩])]).2.1).1.connOpen = true ∧
    (ServerJs.heartbeatTick
        (ServerJs.heartbeatTick ⟨true, true, true⟩ [("7.050", [⟨1, 1⟩])]).1
        (ServerJs.heartbeatTick ⟨true, true, true⟩
          [("7.050", [⟨1, 1⟩])]).2.1).1.timerActive = true ∧
    (ServerJs.heartbeatTick
        (ServerJs.heartbeatTick ⟨true, true, true⟩ [("7.050", [⟨1, 1⟩])]).1
        (ServerJs.heartbeatTick ⟨true, true, true⟩
          [("7.050", [⟨1, 1⟩])]).2.1).2.1 = [("7.050", [⟨1, 1⟩])] ∧
    ServerJs.HbEffect.closeConn ∉
      (ServerJs.heartbeatTick ⟨true, true, true⟩ [("7.050", [⟨1, 1⟩])]).2.2 ∧
    ServerJs.HbEffect.stopTimer ∉
      (ServerJs.heartbeatTick ⟨true, true, true⟩ [("7.050", [⟨1, 1⟩])]).2.2 ∧
    ServerJs.HbEffect.closeConn ∉
      (ServerJs.heartbeatTick
        (ServerJs.heartbeatTick ⟨true, true, true⟩ [("7.050", [⟨1, 1⟩])]).1
        (ServerJs.heartbeatTick ⟨true, true, true⟩ [("7.050", [⟨1, 1⟩])]).2.1).2.2 ∧
    ServerJs.HbEffect.stopTimer ∉
      (ServerJs.heartbeatTick
        (ServerJs.heartbeatTick ⟨true, true, true⟩ [("7.050", [⟨1, 1⟩])]).1
        (ServerJs.heartbeatTick ⟨true, true, true⟩ [("7.050", [⟨1, 1⟩])]).2.1).2.2 := by
  decide

/-- Claim C3: `broadcastToChannel` over a channel with membership set
`members` serializes the event exactly once, sends that one serialized
string to exactly the members whose readyState is OPEN (each exactly
once, in set order), skips every other member without error, and leaves
the room registry unchanged. -/
theorem c3_broadcast_contract (rooms : Rooms) (ch : String) (ev : Event)
    (members : List Conn) (h : lookupRoom rooms ch = some members) :
    (broadcastToChannel ch ev rooms).deliveries
        = (members.filter (fun c => c.readyState = OPEN)).map
            (fun c => (c.id, serialize ev)) ∧
    (broadcastToChannel ch ev rooms).serializations = 1 ∧
    (broadcastToChannel ch ev rooms).rooms = rooms := by
  simp [broadcastToChannel, h, fanOut_eq_filter_map]

/-- Witness for claim C3 on a two-member room with one closed member. -/
theorem c3_broadcast_contract_witness :
    lookupRoom [("7.050", [(⟨1, 1⟩ : Conn), ⟨2, 3⟩])] "7.050" = some [⟨1, 1⟩, ⟨2, 3⟩] ∧
    ((broadcastToChannel "7.050" ⟨"message", []⟩
          [("7.050", [⟨1, 1⟩, ⟨2, 3⟩])]).deliveries
        = ([(⟨1, 1⟩ : Conn), ⟨2, 3⟩].filter (fun c => c.readyState = OPEN)).map
            (fun c => (c.id, serialize ⟨"message", []⟩)) ∧
      (broadcastToChannel "7.050" ⟨"message", []⟩
          [("7.050", [⟨1, 1⟩, ⟨2, 3⟩])]).serializations = 1 ∧
      (broadcastToChannel "7.050" ⟨"message", []⟩
          [("7.050", [⟨1, 1⟩, ⟨2, 3⟩])]).rooms = [("7.050", [⟨1, 1⟩, ⟨2, 3⟩])]) :=
  ⟨by decide,
    c3_broadcast_contract [("7.050", [⟨1, 1⟩, ⟨2, 3⟩])] "7.050" ⟨"message", []⟩
      [⟨1, 1⟩, ⟨2, 3⟩] (by decide)⟩

/-- Claim C4, counterexample: the Part000 variant's close handler removes
the last member of a room but never deletes the emptied entry, so the
registry retains an entry for a channel with zero members. -/
theorem c4_empty_room_counterexample :
    Part000.onClose "7.050" ⟨1, 1⟩ [("7.050", [⟨1, 1⟩])] = [("7.050", [])] ∧
    lookupRoom (Part000.onClose "7.050" ⟨1, 1⟩ [("7.050", [⟨1, 1⟩])]) "7.050"
      = some [] := by
  decide

/-- Claim C4, amended: in the `index.js` variant (`leaveRoom`) and in the
`server.js` variant (close handler followed by `cleanupChannelIfEmpty`),
the close-handler cleanup never leaves an empty membership set in the
registry: starting from a registry with no empty entries, the registry
after the cleanup still has no empty entries.  (The Part000 variant's
close handler retains the emptied entry.) -/
theorem c4_empty_room_amended (ch : String) (ws : Conn) (rooms : Rooms)
    (h : ∀ e ∈ rooms, e.2 ≠ []) :
    (∀ e ∈ IndexJs.onClose ch ws rooms, e.2 ≠ []) ∧
    (∀ e ∈ ServerJs.onClose ch ws rooms, e.2 ≠ []) :=
  ⟨leaveRoom_no_empty ch ws h, serverJsOnClose_no_empty ch ws h⟩

/-- Witness for the amended claim C4: the sole member of "7.050" leaves. -/
theorem c4_empty_room_amended_witness :
    (∀ e ∈ ([("7.050", [⟨1, 1⟩])] : Rooms), e.2 ≠ []) ∧
    ((∀ e ∈ IndexJs.onClose "7.050" ⟨1, 1⟩ [("7.050", [⟨1, 1⟩])], e.2 ≠ []) ∧
      (∀ e ∈ ServerJs.onClose "7.050" ⟨1, 1⟩ [("7.050", [⟨1, 1⟩])], e.2 ≠ [])) :=
  ⟨by decide, c4_empty_room_amended "7.050" ⟨1, 1⟩ [("7.050", [⟨1, 1⟩])] (by decide)⟩

/-- Claim C5, counterexample: in the `index.js` message handler, a joined
sender (id 1, open, a member of its own channel) that relays a non-ping
frame receives its own frame back — the relay fan-out iterates the whole
membership set and does not exclude the sender. -/
theorem c5_relay_counterexample :
    (1, serialize ⟨"offer", [("data", "x")]⟩) ∈
      (IndexJs.handleMessage "K1ABC" "7.050" ⟨1, 1⟩ [("7.050", [⟨1, 1⟩, ⟨2, 1⟩])]
          (some ⟨"offer", [("data", "x")]⟩)).broadcasts := by
  decide

/-- Claim C5, amended: every parseable inbound frame whose kind is not
`ping` is relayed verbatim (the parsed envelope, re-serialized unchanged)
to every open member of the sender's own channel — including the sender
itself whenever the sender's transport is open; no direct reply and no
station refresh happens on the relay path. -/
theorem c5_relay_amended (callsign channel : String) (ws : Conn) (rooms : Rooms)
    (msg : Event) (members : List Conn)
    (hk : msg.kind ≠ "ping") (hm : lookupRoom rooms channel = some members) :
    (IndexJs.handleMessage callsign channel ws rooms (some msg)).broadcasts
        = (members.filter (fun c => c.readyState = OPEN)).map
            (fun c => (c.id, serialize msg)) ∧
    (IndexJs.handleMessage callsign channel ws rooms (some msg)).directSends = [] ∧
    (IndexJs.handleMessage callsign channel ws rooms (some msg)).stationRefreshes = [] ∧
    (ws ∈ members → ws.readyState = OPEN →
      (ws.id, serialize msg) ∈
        (IndexJs.handleMessage callsign channel ws rooms (some msg)).broadcasts) := by
  have hb : (IndexJs.handleMessage callsign channel ws rooms (some msg)).broadcasts
      = fanOut members (serialize msg) := by
    simp [IndexJs.handleMessage, hk, broadcastToChannel, hm]
  refine ⟨?_, ?_, ?_, ?_⟩
  · rw [hb, fanOut_eq_filter_map]
  · simp [IndexJs.handleMessage, hk]
  · simp [IndexJs.handleMessage, hk]
  · intro hmem ho
    rw [hb]
    exact mem_fanOut_of_open _ hmem ho

/-- Witness for the amended claim C5: an `offer` frame from the open,
joined sender 1 is delivered to the other open member 2 and to sender 1
itself. -/
theorem c5_relay_amended_witness :
    (⟨"offer", [("data", "x")]⟩ : Event).kind ≠ "ping" ∧
    lookupRoom [("7.050", [(⟨1, 1⟩ : Conn), ⟨2, 1⟩])] "7.050" = some [⟨1, 1⟩, ⟨2, 1⟩] ∧
    ((IndexJs.handleMessage "K1ABC" "7.050" ⟨1, 1⟩ [("7.050", [⟨1, 1⟩, ⟨2, 1⟩])]
          (some ⟨"offer", [("data", "x")]⟩)).broadcasts
        = ([(⟨1, 1⟩ : Conn), ⟨2, 1⟩].filter (fun c => c.readyState = OPEN)).map
            (fun c => (c.id, serialize ⟨"offer", [("data", "x")]⟩)) ∧
      (IndexJs.handleMessage "K1ABC" "7.050" ⟨1, 1⟩ [("7.050", [⟨1, 1⟩, ⟨2, 1⟩])]
          (some ⟨"offer", [("data", "x")]⟩)).directSends = [] ∧
      (IndexJs.handleMessage "K1ABC" "7.050" ⟨1, 1⟩ [("7.050", [⟨1, 1⟩, ⟨2, 1⟩])]
          (some ⟨"offer", [("data", "x")]⟩)).stationRefreshes = [] ∧
      ((⟨1, 1⟩ : Conn) ∈ [(⟨1, 1⟩ : Conn), ⟨2, 1⟩] → (⟨1, 1⟩ : Conn).readyState = OPEN →
        ((⟨1, 1⟩ : Conn).id, serialize ⟨"offer", [("data", "x")]⟩) ∈
          (IndexJs.handleMessage "K1ABC" "7.050" ⟨1, 1⟩ [("7.050", [⟨1, 1⟩, ⟨2, 1⟩])]
              (some ⟨"offer", [("data", "x")]⟩)).broadcasts)) :=
  ⟨by decide, by decide,
    c5_relay_amended "K1ABC" "7.050" ⟨1, 1⟩ [("7.050", [⟨1, 1⟩, ⟨2, 1⟩])]
      ⟨"offer", [("data", "x")]⟩ [⟨1, 1⟩, ⟨2, 1⟩] (by decide) (by decide)⟩

/-- Claim C6: a member whose transport is not open, encountered
mid-iteration, does not abort the fan-out: the deliveries are exactly
those of the same membership with the dead member absent, and every open
member before or after it still receives the event. -/
theorem c6_no_abort (rooms : Rooms) (ch : String) (ev : Event)
    (pre post : List Conn) (c : Conn)
    (hm : lookupRoom rooms ch = some (pre ++ c :: post))
    (hc : c.readyState ≠ OPEN) :
    (broadcastToChannel ch ev rooms).deliveries
        = fanOut (pre ++ post) (serialize ev) ∧
    (∀ w ∈ pre ++ post, w.readyState = OPEN →
        (w.id, serialize ev) ∈ (broadcastToChannel ch ev rooms).deliveries) := by
  have hb : (broadcastToChannel ch ev rooms).deliveries
      = fanOut (pre ++ c :: post) (serialize ev) := by
    simp [broadcastToChannel, hm]
  have heq : fanOut (pre ++ c :: post) (serialize ev)
      = fanOut (pre ++ post) (serialize ev) := by
    rw [fanOut_append, fanOut_append]
    congr 1
    simp [fanOut, hc]
  constructor
  · rw [hb, heq]
  · intro w hw ho
    rw [hb]
    have hw' : w ∈ pre ++ c :: post := by
      rcases List.mem_append.1 hw with h1 | h2
      · exact List.mem_append_left _ h1
      · exact List.mem_append_right _ (List.mem_cons_of_mem _ h2)
    exact mem_fanOut_of_open _ hw' ho

/-- Witness for claim C6: member 2 is closed (readyState 3) and sits
between open members 1 and 3; both 1 and 3 still receive the event. -/
theorem c6_no_abort_witness :
    lookupRoom [("7.050", [(⟨1, 1⟩ : Conn), ⟨2, 3⟩, ⟨3, 1⟩])] "7.050"
      = some ([⟨1, 1⟩] ++ ⟨2, 3⟩ :: [⟨3, 1⟩]) ∧
    (⟨2, 3⟩ : Conn).readyState ≠ OPEN ∧
    ((broadcastToChannel "7.050" ⟨"message", []⟩
          [("7.050", [⟨1, 1⟩, ⟨2, 3⟩, ⟨3, 1⟩])]).deliveries
        = fanOut ([⟨1, 1⟩] ++ [⟨3, 1⟩]) (serialize ⟨"message", []⟩) ∧
      (∀ w ∈ [(⟨1, 1⟩ : Conn)] ++ [⟨3, 1⟩], w.readyState = OPEN →
        (w.id, serialize ⟨"message", []⟩) ∈
          (broadcastToChannel "7.050" ⟨"message", []⟩
            [("7.050", [⟨1, 1⟩, ⟨2, 3⟩, ⟨3, 1⟩])]).deliveries)) :=
  ⟨by decide, by decide,
    c6_no_abort [("7.050", [⟨1, 1⟩, ⟨2, 3⟩, ⟨3, 1⟩])] "7.050" ⟨"message", []⟩
      [⟨1, 1⟩] [⟨3, 1⟩] ⟨2, 3⟩ (by decide) (by decide)⟩

/-- Claim C7, counterexample: the `index.js` connection handler sends no
`hello` acknowledgement to a successfully joining connection — it sends
nothing directly, and what it broadcasts is the `presence` event, not a
`hello`. -/
theorem c7_hello_counterexample :
    (IndexJs.onConnection ⟨some "K1ABC", some "7.050"⟩ ⟨1, 1⟩ []).directSends = [] ∧
    (IndexJs.onConnection ⟨some "K1ABC", some "7.050"⟩ ⟨1, 1⟩ []).broadcasts
      = [(1, serialize (presenceEvent "K1ABC" "7.050"))] ∧
    serialize (presenceEvent "K1ABC" "7.050") ≠ serialize (helloEvent "K1ABC" "7.050") := by
  decide

/-- Claim C7, amended: in the `server.js` variant, every connection that
successfully joins (non-empty normalized callsign) receives the `hello`
acknowledgement carrying its callsign and channel as the handler's only
direct send, addressed to that connection alone, and the handler
broadcasts nothing — so no other room member receives the hello.  (The
`index.js` variant sends no hello at all.) -/
theorem c7_hello_amended (req : ConnReq) (ws : Conn) (rooms : Rooms)
    (h : norm req.callsign? ≠ "") :
    (ServerJs.onConnection req ws rooms).closed = false ∧
    (ServerJs.onConnection req ws rooms).directSends
      = [(ws.id, serialize
            (helloEvent (norm req.callsign?) (jsDefault req.channel? "7.050")))] ∧
    (ServerJs.onConnection req ws rooms).broadcasts = [] := by
  have hch : jsDefault req.channel? "7.050" ≠ "" := jsDefault_ne_empty _ (by decide)
  simp [ServerJs.onConnection, h, hch]

/-- Witness for the amended claim C7: "K1ABC" joins "7.050" and gets the
hello directly, with nothing broadcast. -/
theorem c7_hello_amended_witness :
    norm (some "K1ABC") ≠ "" ∧
    ((ServerJs.onConnection ⟨some "K1ABC", some "7.050"⟩ ⟨1, 1⟩ []).closed = false ∧
      (ServerJs.onConnection ⟨some "K1ABC", some "7.050"⟩ ⟨1, 1⟩ []).directSends
        = [((1 : Nat), serialize
              (helloEvent (norm (some "K1ABC")) (jsDefault (some "7.050") "7.050")))] ∧
      (ServerJs.onConnection ⟨some "K1ABC", some "7.050"⟩ ⟨1, 1⟩ []).broadcasts = []) :=
  ⟨by decide, c7_hello_amended ⟨some "K1ABC", some "7.050"⟩ ⟨1, 1⟩ [] (by decide)⟩

/-- Claim C8: in the `index.js` message handler, a joined connection with
a (non-empty) callsign that sends a `ping` frame causes exactly one
station last-seen refresh for that callsign, exactly one direct
`pong` reply to the sender, and no broadcast to the room. -/
theorem c8_ping_pong (callsign channel : String) (ws : Conn) (rooms : Rooms)
    (fs : List (String × String)) (h : callsign ≠ "") :
    (IndexJs.handleMessage callsign channel ws rooms
        (some ⟨"ping", fs⟩)).stationRefreshes = [callsign] ∧
    (IndexJs.handleMessage callsign channel ws rooms
        (some ⟨"ping", fs⟩)).directSends = [(ws.id, serialize pongEvent)] ∧
    (IndexJs.handleMessage callsign channel ws rooms
        (some ⟨"ping", fs⟩)).broadcasts = [] := by
  simp [IndexJs.handleMessage, h]

/-- Witness for claim C8: "K1ABC" pings from a two-member room. -/
theorem c8_ping_pong_witness :
    ("K1ABC" : String) ≠ "" ∧
    ((IndexJs.handleMessage "K1ABC" "7.050" ⟨1, 1⟩ [("7.050", [⟨1, 1⟩, ⟨2, 1⟩])]
          (some ⟨"ping", []⟩)).stationRefreshes = ["K1ABC"] ∧
      (IndexJs.handleMessage "K1ABC" "7.050" ⟨1, 1⟩ [("7.050", [⟨1, 1⟩, ⟨2, 1⟩])]
          (some ⟨"ping", []⟩)).directSends = [((1 : Nat), serialize pongEvent)] ∧
      (IndexJs.handleMessage "K1ABC" "7.050" ⟨1, 1⟩ [("7.050", [⟨1, 1⟩, ⟨2, 1⟩])]
          (some ⟨"ping", []⟩)).broadcasts = []) :=
  ⟨by decide,
    c8_ping_pong "K1ABC" "7.050" ⟨1, 1⟩ [("7.050", [⟨1, 1⟩, ⟨2, 1⟩])] [] (by decide)⟩

/-- Claim C9: the recent-messages query selects the channel's rows in
descending-id (newest-first) order capped at the limit, and the list
handed to the caller is exactly that selection reversed — ascending id
(chronological), the same rows with every field unchanged. -/
theorem c9_recent_messages (db : List MsgRow) (ch : String) (lim : Nat) :
    recentMessages db ch lim = (selectRecentDesc db ch lim).reverse ∧
    (selectRecentDesc db ch lim).Pairwise (fun a b => b.id ≤ a.id) ∧
    (recentMessages db ch lim).Pairwise (fun a b => a.id ≤ b.id) ∧
    (selectRecentDesc db ch lim).length ≤ lim ∧
    (∀ r : MsgRow, r ∈ recentMessages db ch lim ↔ r ∈ selectRecentDesc db ch lim) := by
  have hmap : recentMessages db ch lim = (selectRecentDesc db ch lim).reverse :=
    map_copy_payload _
  have hsorted : (selectRecentDesc db ch lim).Pairwise (fun a b => b.id ≤ a.id) :=
    List.Pairwise.sublist (List.take_sublist _ _) (sorted_sortByIdDesc _)
  refine ⟨hmap, hsorted, ?_, ?_, ?_⟩
  · rw [hmap, List.pairwise_reverse]
    exact hsorted
  · exact List.length_take_le _ _
  · intro r
    rw [hmap, List.mem_reverse]

/-- Claim C10: a request whose channel parameter is absent or empty gets
the default channel "7.050": the `index.js` handler joins it to room
"7.050" (and never closes any request), and the `server.js` handler, when
the callsign is valid, joins it to room "7.050" without rejection;
moreover every request the `server.js` handler does close has an empty
normalized callsign — only a missing identity causes rejection. -/
theorem c10_default_channel (req : ConnReq) (ws : Conn) (rooms : Rooms)
    (hch : req.channel? = none ∨ req.channel? = some "") :
    ((IndexJs.onConnection req ws rooms).closed = false ∧
      ws ∈ (lookupRoom (IndexJs.onConnection req ws rooms).rooms "7.050").getD []) ∧
    (norm req.callsign? ≠ "" →
      (ServerJs.onConnection req ws rooms).closed = false ∧
      ws ∈ (lookupRoom (ServerJs.onConnection req ws rooms).rooms "7.050").getD []) ∧
    (∀ (req2 : ConnReq) (ws2 : Conn) (rooms2 : Rooms),
        ((ServerJs.onConnection req2 ws2 rooms2).closed = true →
          norm req2.callsign? = "") ∧
        (IndexJs.onConnection req2 ws2 rooms2).closed = false) := by
  have hdef : jsDefault req.channel? "7.050" = "7.050" := by
    rcases hch with h | h <;> simp [jsDefault, h]
  have hne : ("7.050" : String) ≠ "" := by decide
  have hidx : ∀ (r : ConnReq) (w : Conn) (rm : Rooms),
      (IndexJs.onConnection r w rm).closed = false := by
    intro r w rm
    by_cases hc : norm r.callsign? = "" <;> simp [IndexJs.onConnection, hc]
  have hidxrooms : (IndexJs.onConnection req ws rooms).rooms
      = joinRoom (jsDefault req.channel? "7.050") ws rooms := by
    by_cases hc : norm req.callsign? = "" <;> simp [IndexJs.onConnection, hc]
  refine ⟨⟨hidx req ws rooms, ?_⟩, ?_, ?_⟩
  · rw [hidxrooms, hdef]
    exact mem_lookupRoom_joinRoom_self _ _ _
  · intro hcs
    constructor
    · simp [ServerJs.onConnection, hcs, hdef, hne]
    · have : (ServerJs.onConnection req ws rooms).rooms
          = joinRoom (jsDefault req.channel? "7.050") ws rooms := by
        simp [ServerJs.onConnection, hcs, hdef, hne]
      rw [this, hdef]
      exact mem_lookupRoom_joinRoom_self _ _ _
  · intro req2 ws2 rooms2
    refine ⟨?_, hidx req2 ws2 rooms2⟩
    intro hcl
    by_cases hc : norm req2.callsign? = ""
    · exact hc
    · exfalso
      have hch2 : jsDefault req2.channel? "7.050" ≠ "" := jsDefault_ne_empty _ hne
      simp [ServerJs.onConnection, hc, hch2] at hcl

/-- Witness for claim C10: "K1ABC" with no channel parameter joins
"7.050" in both handlers; the request with no parameters at all is closed
by `server.js` and its callsign is indeed empty. -/
theorem c10_default_channel_witness :
    ((⟨some "K1ABC", none⟩ : ConnReq).channel? = none ∨
      (⟨some "K1ABC", none⟩ : ConnReq).channel? = some "") ∧
    norm (⟨some "K1ABC", none⟩ : ConnReq).callsign? ≠ "" ∧
    ((IndexJs.onConnection ⟨some "K1ABC", none⟩ ⟨1, 1⟩ []).closed = false ∧
      (⟨1, 1⟩ : Conn) ∈
        (lookupRoom (IndexJs.onConnection ⟨some "K1ABC", none⟩ ⟨1, 1⟩ []).rooms
          "7.050").getD []) ∧
    ((ServerJs.onConnection ⟨some "K1ABC", none⟩ ⟨1, 1⟩ []).closed = false ∧
      (⟨1, 1⟩ : Conn) ∈
        (lookupRoom (ServerJs.onConnection ⟨some "K1ABC", none⟩ ⟨1, 1⟩ []).rooms
          "7.050").getD []) ∧
    norm (⟨none, none⟩ : ConnReq).callsign? = "" := by
  have H := c10_default_channel ⟨some "K1ABC", none⟩ ⟨1, 1⟩ [] (Or.inl rfl)
  exact ⟨Or.inl rfl, by decide, H.1, H.2.1 (by decide),
    (H.2.2 ⟨none, none⟩ ⟨1, 1⟩ []).1 (by decide)⟩

end WorldMorse
